import Mathlib

/-!
Verification of the SubWave live-captioning pipeline (src/main.rs).

The embedding models:
  * the capture callback inside `capture_audio` (noise gate + append to the
    shared buffer),
  * the drain (`std::mem::take` under the mutex) and one iteration of the
    polling loop in `transcribe_audio`, with the whisper backend abstracted
    as a record of the three calls the loop makes
    (`full`, `full_n_segments`, `full_get_segment_text`),
  * `find_best_input_device` over an abstract WASAPI host,
  * the `SubWave` application state and its `update` function, with thread
    spawns recorded as counters (commands other than spawns are not needed
    by any claim and are not modelled).

Audio samples (`f32` in the source) are modelled as rationals; machine
floating point is idealised as exact arithmetic.
-/

namespace SubWaveSpec

/-- Audio samples (`f32` in the source) are modelled as rationals. -/
abbrev Sample := ℚ

/-- `let noise_threshold = 0.001;` in `capture_audio`. -/
def noise_threshold : Sample := 1 / 1000

/-- The predicate of the capture callback's filter:
`sample.abs() > noise_threshold`. -/
def gateKeeps (s : Sample) : Bool := decide (noise_threshold < |s|)

/-- The data callback in `capture_audio`: under the buffer lock,
`buffer.extend(data.iter().filter(|&&sample| sample.abs() > noise_threshold))`.
One invocation appends the gated frame to the shared buffer. -/
def capture_audio_frame (buffer data : List Sample) : List Sample :=
  buffer ++ data.filter gateKeeps

/-- The consumer's drain: `std::mem::take(&mut *buffer)` under the lock.
Returns (drained contents, new buffer contents). -/
def drain (buffer : List Sample) : List Sample × List Sample :=
  (buffer, ([] : List Sample))

/-- The whisper backend as seen by one iteration of `transcribe_audio`'s
loop, abstracted over the drained chunk: `whisper_state.full` (only its
success/failure matters to the loop), `full_n_segments` (a `Result`; the
loop uses `unwrap_or(0)`), and `full_get_segment_text i` (a `Result` per
segment; the loop keeps only the `Ok` texts). `create_state()` is followed
by `.expect`, so a state-creation failure aborts the thread and is not part
of a completed cycle; it is not modelled. -/
structure WhisperBackend where
  full : List Sample → Except Unit Unit
  n_segments : List Sample → Option Nat
  get_segment_text : List Sample → Nat → Option String

/-- The minimum buffer length `8000` checked by `if buffer.len() < 8000`. -/
def minChunkSamples : Nat := 8000

/-- One step of the segment-concatenation loop:
`transcription.push_str(&text); transcription.push(' ');` when
`full_get_segment_text(i)` is `Ok(text)`, nothing otherwise. -/
def segPush (get : Nat → Option String) (acc : String) (i : Nat) : String :=
  match get i with
  | some t => acc ++ t ++ " "
  | none => acc

/-- The `for i in 0..num_segments` loop building `transcription`. -/
def segmentFold (get : Nat → Option String) (n : Nat) : String :=
  (List.range n).foldl (segPush get) ""

/-- Observable outcome of one iteration of the `transcribe_audio` loop:
the buffer contents afterwards, the chunk passed to `whisper_state.full`
(if the cycle got that far), and the transcript update sent on `tx`
(if any). -/
structure CycleResult where
  buffer : List Sample
  chunk : Option (List Sample)
  emitted : Option String

/-- One iteration of the loop in `transcribe_audio`: sleep, lock the
buffer, skip (`continue`) if it holds fewer than 8000 samples, otherwise
take it; run `whisper_state.full` and skip on error; otherwise concatenate
the segment texts and send a `TranscriptionUpdate` iff the concatenation is
non-empty. -/
def transcribe_audio_cycle (be : WhisperBackend) (buffer : List Sample) :
    CycleResult :=
  if buffer.length < minChunkSamples then
    { buffer := buffer, chunk := none, emitted := none }
  else
    let taken := drain buffer
    let audio_data := taken.1
    match be.full audio_data with
    | .error _ => { buffer := taken.2, chunk := some audio_data, emitted := none }
    | .ok _ =>
      let num_segments := (be.n_segments audio_data).getD 0
      let transcription := segmentFold (be.get_segment_text audio_data) num_segments
      { buffer := taken.2, chunk := some audio_data,
        emitted := if transcription = "" then none else some transcription }

/-- An audio device: `name()` returns `Result<String, _>`, modelled as
`Option String`. -/
structure Device where
  name : Option String

/-- The WASAPI host as queried by `find_best_input_device`:
`host.output_devices()` is a `Result` (modelled `Option`) of the device
list, and `host.default_output_device()` an `Option`. -/
structure Host where
  output_devices : Option (List Device)
  default_output_device : Option Device

/-- `let output_keywords = ["hdmi", "digital", "display"];`. -/
def output_keywords : List String := ["hdmi", "digital", "display"]

/-- Does the character list start with `kw`? (Helper for substring
matching, mirroring Rust's `str::contains`.) -/
def charsLead : List Char → List Char → Bool
  | [], _ => true
  | _ :: _, [] => false
  | c :: cs, h :: hs => c == h && charsLead cs hs

/-- Does `kw` occur contiguously anywhere in the character list?
(Rust's `str::contains` on `char` sequences.) -/
def charsContain (kw : List Char) : List Char → Bool
  | [] => charsLead kw []
  | h :: t => charsLead kw (h :: t) || charsContain kw t

/-- `let name_lower = name.to_lowercase();` — lowercasing modelled
per character on the name's character list. -/
def lowerChars (n : String) : List Char := n.data.map Char.toLower

/-- `output_keywords.iter().any(|kw| name_lower.contains(kw))`. -/
def nameMatchesKeywords (n : String) : Bool :=
  output_keywords.any (fun kw => charsContain kw.data (lowerChars n))

/-- The loop body's test: a device matches when `device.name()` is `Ok`
and the lowercased name contains a keyword. -/
def deviceMatches (d : Device) : Bool :=
  match d.name with
  | some n => nameMatchesKeywords n
  | none => false

/-- `find_best_input_device`: if `host.output_devices()` is `Ok`, return
the first device whose name matches the keyword set; otherwise (or when no
device matches) fall back to `host.default_output_device()`. -/
def find_best_input_device (host : Host) : Option Device :=
  let fromLoop : Option Device :=
    match host.output_devices with
    | some devices => devices.find? deviceMatches
    | none => none
  match fromLoop with
  | some device => some device
  | none => host.default_output_device

/-- The device-selection policy exactly as the claim words it: enumerate
the host's output devices and return the first whose name matches the
keyword set; if none matches, return the host's default output device; if
no default exists either, return no device. Written from the claim for
comparison with `find_best_input_device`. -/
def selectLoopbackDeviceSpec (host : Host) : Option Device :=
  match (host.output_devices.getD []).find? deviceMatches with
  | some device => some device
  | none => host.default_output_device

/-- The `Message` enum (payloads kept only where a claim needs them;
cursor coordinates are modelled as rationals). -/
inductive Message where
  | StartCapture
  | StopCapture
  | TranscriptionUpdate (text : String)
  | UpdateCursorPosition (x y : ℚ)
  | StartWindowDrag
  | EndWindowDrag
  | RefreshInput
  | None

/-- The `SubWave` application state. `audio_buffer` holds the contents of
the `Arc<Mutex<Vec<f32>>>` shared sample buffer (the `Arc` is shared, so
cloning it in `update` does not copy or replace the contents). -/
structure SubWave where
  is_capturing : Bool
  audio_buffer : List Sample
  latest_transcription : String
  drag_origin : Option (ℚ × ℚ)
  last_cursor_position : Option (ℚ × ℚ)
  window_position : Option (ℚ × ℚ)

/-- `SubWave::default()`. -/
def SubWave.default : SubWave :=
  { is_capturing := false
    audio_buffer := []
    latest_transcription := ""
    drag_origin := none
    last_cursor_position := none
    window_position := some (0, 0) }

/-- Result of one `update` call: the new state plus how many capture /
transcription threads the call spawned (the source's `thread::spawn`
calls). Returned `Command`s other than spawns are not modelled. -/
structure StepResult where
  state : SubWave
  spawned_capture : Nat
  spawned_transcribe : Nat

/-- `SubWave::update`. `StartCapture` spawns a producer/consumer pair only
when not already capturing, and clones the existing `audio_buffer` `Arc`
(the buffer contents are untouched). `StopCapture` only clears the flag.
`UpdateCursorPosition` returns early (a `move_to` command) when a drag is
in progress, without recording the cursor position. `RefreshInput` spawns
a fresh pair on the same buffer when capturing. -/
def update (s : SubWave) (m : Message) : StepResult :=
  match m with
  | .StartCapture =>
    if !s.is_capturing then
      { state := { s with is_capturing := true }
        spawned_capture := 1, spawned_transcribe := 1 }
    else
      { state := s, spawned_capture := 0, spawned_transcribe := 0 }
  | .StopCapture =>
    { state := { s with is_capturing := false }
      spawned_capture := 0, spawned_transcribe := 0 }
  | .TranscriptionUpdate t =>
    { state := { s with latest_transcription := t }
      spawned_capture := 0, spawned_transcribe := 0 }
  | .UpdateCursorPosition x y =>
    match s.drag_origin with
    | some _ => { state := s, spawned_capture := 0, spawned_transcribe := 0 }
    | none =>
      { state := { s with last_cursor_position := some (x, y) }
        spawned_capture := 0, spawned_transcribe := 0 }
  | .StartWindowDrag =>
    { state := { s with drag_origin := s.last_cursor_position }
      spawned_capture := 0, spawned_transcribe := 0 }
  | .EndWindowDrag =>
    let s1 :=
      match s.drag_origin, s.last_cursor_position with
      | some o, some c =>
        match s.window_position with
        | some w => { s with window_position := some (w.1 + (c.1 - o.1), w.2 + (c.2 - o.2)) }
        | none => s
      | _, _ => s
    { state := { s1 with drag_origin := none }
      spawned_capture := 0, spawned_transcribe := 0 }
  | .RefreshInput =>
    if s.is_capturing then
      { state := { s with is_capturing := true }
        spawned_capture := 1, spawned_transcribe := 1 }
    else
      { state := s, spawned_capture := 0, spawned_transcribe := 0 }
  | .None =>
    { state := s, spawned_capture := 0, spawned_transcribe := 0 }

/-- The head of `transcribe_audio` before its loop:
`WhisperContext::new_with_params(...).expect("Failed to load Whisper model")`.
The load runs on the spawned transcription thread; on failure the `expect`
panics and the thread dies before ever entering the consumer loop. Returns
whether the thread survives to its loop. -/
def whisper_model_load_survives (load : Except Unit Unit) : Bool :=
  match load with
  | .ok _ => true
  | .error _ => false

/-- The texts the segment loop keeps: `full_get_segment_text i` for
`i in 0..num_segments`, in order, dropping the `Err` ones. -/
def orderedSegments (be : WhisperBackend) (chunk : List Sample) : List String :=
  (List.range ((be.n_segments chunk).getD 0)).filterMap (be.get_segment_text chunk)

/-- Each segment text followed by a single space, concatenated in order —
the closed form of the source's `push_str`/`push(' ')` loop. -/
def joinSegments : List String → String
  | [] => ""
  | t :: ts => t ++ " " ++ joinSegments ts

/-- A concrete backend whose inference succeeds with two segments;
used to instantiate hypotheses of the cycle theorems. -/
def demoBackend : WhisperBackend :=
  { full := fun _ => .ok ()
    n_segments := fun _ => some 2
    get_segment_text := fun _ i =>
      if i = 0 then some "hello" else if i = 1 then some "world" else none }

/-- A concrete backend whose inference always fails. -/
def failBackend : WhisperBackend :=
  { full := fun _ => .error ()
    n_segments := fun _ => some 0
    get_segment_text := fun _ _ => none }

/-- A buffer of one minimum chunk's worth of above-threshold samples, as
left behind by a session's capture producer. -/
def staleBuffer : List Sample := List.replicate 8000 1

/-- An application state mid-session: capturing, with `staleBuffer`
accumulated in the shared buffer. -/
def capturingState : SubWave :=
  { SubWave.default with is_capturing := true, audio_buffer := staleBuffer }

/-- A host with one non-matching output device and a default output
device. -/
def demoHost : Host :=
  { output_devices := some [{ name := some "usb" }]
    default_output_device := some { name := some "usb" } }

/-- Folding the segment-push step from any accumulator appends the joined
kept texts. -/
theorem segPush_foldl (get : Nat → Option String) (l : List Nat) :
    ∀ acc : String, l.foldl (segPush get) acc = acc ++ joinSegments (l.filterMap get) := by
  induction l with
  | nil =>
    intro acc
    simp [joinSegments, String.append_empty]
  | cons i t ih =>
    intro acc
    cases h : get i with
    | none =>
      simp only [List.foldl_cons, List.filterMap_cons, h, segPush]
      exact ih acc
    | some s =>
      simp only [List.foldl_cons, List.filterMap_cons, h, segPush, joinSegments]
      rw [ih (acc ++ s ++ " ")]
      simp [String.append_assoc]

/-- The source's transcription-building loop equals the joined kept
segment texts. -/
theorem segmentFold_eq_join (get : Nat → Option String) (n : Nat) :
    segmentFold get n = joinSegments ((List.range n).filterMap get) := by
  have h := segPush_foldl get (List.range n) ""
  simpa [segmentFold, String.empty_append] using h

/-- C1: after the capture callback appends a gated frame, no sample whose
absolute amplitude is at or below the noise threshold is in the buffer
(given that the buffer held only above-threshold samples, as every prior
append guarantees), every frame sample strictly above the threshold is in
the buffer, and the surviving samples sit at the end of the buffer as an
order-preserving sublist of the frame. -/
theorem capture_noise_gate (buffer data : List Sample)
    (hbuf : ∀ s ∈ buffer, noise_threshold < |s|) :
    (∀ s : Sample, |s| ≤ noise_threshold → s ∉ capture_audio_frame buffer data) ∧
    (∀ s ∈ data, noise_threshold < |s| → s ∈ capture_audio_frame buffer data) ∧
    data.filter gateKeeps <:+ capture_audio_frame buffer data ∧
    List.Sublist (data.filter gateKeeps) data := by
  refine ⟨?_, ?_, ?_, List.filter_sublist _⟩
  · intro s hle hmem
    rcases List.mem_append.1 hmem with h | h
    · exact absurd (hbuf s h) (not_lt.2 hle)
    · have hk := List.of_mem_filter h
      rw [gateKeeps, decide_eq_true_iff] at hk
      exact absurd hk (not_lt.2 hle)
  · intro s hs hgt
    refine List.mem_append_right _ (List.mem_filter.2 ⟨hs, ?_⟩)
    rw [gateKeeps, decide_eq_true_iff]
    exact hgt
  · exact List.suffix_append buffer (data.filter gateKeeps)

/-- Witness for C1 at the empty buffer and the frame `[1, 1/2000]`:
the below-threshold sample `1/2000` is absent after the append and the
above-threshold sample `1` is present. -/
theorem capture_noise_gate_witness :
    ((1 : ℚ) / 2000 ∉ capture_audio_frame [] [1, 1 / 2000]) ∧
    ((1 : ℚ) ∈ capture_audio_frame [] [1, 1 / 2000]) := by
  have h := capture_noise_gate [] [1, 1 / 2000] (by intro s hs; simp at hs)
  refine ⟨h.1 (1 / 2000) ?_, h.2.1 1 (by simp) ?_⟩
  · rw [abs_of_nonneg (by norm_num)]
    norm_num [noise_threshold]
  · rw [abs_of_nonneg (by norm_num : (0 : ℚ) ≤ 1)]
    norm_num [noise_threshold]

/-- C2: `drain` returns everything buffered and leaves the buffer empty,
so a second drain with no intervening append returns the empty
sequence. -/
theorem drain_take_all (buffer : List Sample) :
    (drain buffer).1 = buffer ∧ (drain buffer).2 = [] ∧
    (drain (drain buffer).2).1 = [] :=
  ⟨rfl, rfl, rfl⟩

/-- C3: on a wake where the buffer holds fewer samples than the backend's
minimum (which subsumes the empty chunk), the cycle is skipped with no
side effect: nothing is passed to the backend (`full` is never invoked),
no update is emitted, and the buffer is untouched. -/
theorem undersized_cycle_skipped (be : WhisperBackend) (buffer : List Sample)
    (h : buffer.length < minChunkSamples) :
    (transcribe_audio_cycle be buffer).chunk = none ∧
    (transcribe_audio_cycle be buffer).emitted = none ∧
    (transcribe_audio_cycle be buffer).buffer = buffer := by
  simp [transcribe_audio_cycle, h]

/-- Witness for C3 at the empty buffer. -/
theorem undersized_cycle_skipped_witness :
    ([] : List Sample).length < minChunkSamples ∧
    ((transcribe_audio_cycle demoBackend []).chunk = none ∧
     (transcribe_audio_cycle demoBackend []).emitted = none ∧
     (transcribe_audio_cycle demoBackend []).buffer = []) :=
  ⟨by decide, undersized_cycle_skipped demoBackend [] (by decide)⟩

/-- C10: the consumer's minimum chunk size is 8000 samples; below it the
buffer is not drained at all (its contents are left unchanged, so audio
accumulates across wake periods), while at or above it the whole buffer is
drained and passed to the backend. -/
theorem min_chunk_accumulates (be : WhisperBackend) (small big : List Sample)
    (hsmall : small.length < 8000) (hbig : 8000 ≤ big.length) :
    minChunkSamples = 8000 ∧
    (transcribe_audio_cycle be small).buffer = small ∧
    (transcribe_audio_cycle be small).chunk = none ∧
    (transcribe_audio_cycle be big).chunk = some big := by
  have hs : small.length < minChunkSamples := hsmall
  have hnot : ¬ big.length < minChunkSamples := Nat.not_lt.2 hbig
  refine ⟨rfl, ?_, ?_, ?_⟩
  · simp [transcribe_audio_cycle, hs]
  · simp [transcribe_audio_cycle, hs]
  · rw [transcribe_audio_cycle, if_neg hnot]
    cases hfull : be.full big <;> simp [drain, hfull]

/-- Witness for C10 at the empty buffer and a buffer of exactly 8000
samples. -/
theorem min_chunk_accumulates_witness :
    (([] : List Sample).length < 8000 ∧
     8000 ≤ (List.replicate 8000 (0 : Sample)).length) ∧
    (minChunkSamples = 8000 ∧
     (transcribe_audio_cycle demoBackend []).buffer = [] ∧
     (transcribe_audio_cycle demoBackend []).chunk = none ∧
     (transcribe_audio_cycle demoBackend (List.replicate 8000 (0 : Sample))).chunk =
       some (List.replicate 8000 (0 : Sample))) :=
  ⟨⟨by decide, by rw [List.length_replicate]⟩,
   min_chunk_accumulates demoBackend [] (List.replicate 8000 (0 : Sample))
     (by decide) (by rw [List.length_replicate])⟩

/-- C4 counterexample: starting from a capturing state whose shared buffer
holds a full chunk of stale samples, `stop()` followed by `start()` leaves
the very same non-empty buffer in place (nothing is emptied, no fresh
buffer is constructed), and the new session's consumer drains exactly
those stale samples on its first full cycle. -/
theorem session_boundary_stale_samples :
    (update (update capturingState Message.StopCapture).state
        Message.StartCapture).state.audio_buffer = staleBuffer ∧
    staleBuffer ≠ [] ∧
    (transcribe_audio_cycle demoBackend staleBuffer).chunk = some staleBuffer := by
  refine ⟨rfl, ?_, ?_⟩
  · intro h
    have hlen := congrArg List.length h
    simp only [staleBuffer, List.length_replicate, List.length_nil] at hlen
    exact absurd hlen (by decide)
  · have hnot : ¬ staleBuffer.length < minChunkSamples := by
      simp only [staleBuffer, List.length_replicate, minChunkSamples]
      exact Nat.lt_irrefl _
    rw [transcribe_audio_cycle, if_neg hnot]
    rfl

/-- C4 amended: buffered samples do survive a session boundary — `stop()`
does not empty the Shared Sample Buffer and `start()` reuses the same
buffer rather than constructing a fresh one, so for every state the buffer
contents are unchanged across a stop-then-start boundary. -/
theorem stop_start_preserves_buffer (s : SubWave) :
    (update (update s Message.StopCapture).state
        Message.StartCapture).state.audio_buffer = s.audio_buffer ∧
    (update s Message.StopCapture).state.audio_buffer = s.audio_buffer :=
  ⟨rfl, rfl⟩

/-- C5 counterexample: from the idle default state, `start()`
unconditionally transitions to Capturing and spawns the transcription
thread before any model load is attempted; the load happens inside that
thread, where a failure merely kills the thread. So under a failed model
load the controller is in Capturing, not Idle, and `update` (whose result
carries no failure at all) surfaced nothing to the caller. -/
theorem model_load_failure_not_fatal_to_start :
    (update SubWave.default Message.StartCapture).state.is_capturing = true ∧
    (update SubWave.default Message.StartCapture).spawned_transcribe = 1 ∧
    whisper_model_load_survives (.error ()) = false :=
  ⟨rfl, rfl, rfl⟩

/-- C5 amended: an acoustic-model load failure is not surfaced by
`start()`: for every load outcome, `start()` from the idle default state
transitions to Capturing (it does not remain Idle and returns no failure),
and the load outcome only decides whether the spawned transcription thread
survives to its consumer loop. -/
theorem model_load_failure_kills_thread_only (load : Except Unit Unit) :
    (update SubWave.default Message.StartCapture).state.is_capturing = true ∧
    (whisper_model_load_survives load = true ↔ load = .ok ()) := by
  refine ⟨rfl, ?_⟩
  cases load with
  | ok u => cases u; simp [whisper_model_load_survives]
  | error e => cases e; simp [whisper_model_load_survives]

/-- C6: when the backend's inference call on the drained chunk fails, the
cycle is skipped silently: no update is emitted (so no error reaches the
UI), the chunk that was drained was passed to `full`, and the cycle ends
normally with the buffer left empty for the next period. -/
theorem inference_failure_skipped (be : WhisperBackend) (buffer : List Sample)
    (hlen : minChunkSamples ≤ buffer.length) (hfail : be.full buffer = .error ()) :
    (transcribe_audio_cycle be buffer).emitted = none ∧
    (transcribe_audio_cycle be buffer).chunk = some buffer ∧
    (transcribe_audio_cycle be buffer).buffer = [] := by
  have hnot : ¬ buffer.length < minChunkSamples := Nat.not_lt.2 hlen
  rw [transcribe_audio_cycle, if_neg hnot]
  simp [drain, hfail]

/-- Witness for C6 with the always-failing backend on an 8000-sample
buffer. -/
theorem inference_failure_skipped_witness :
    (minChunkSamples ≤ (List.replicate 8000 (0 : Sample)).length ∧
     failBackend.full (List.replicate 8000 (0 : Sample)) = .error ()) ∧
    ((transcribe_audio_cycle failBackend (List.replicate 8000 (0 : Sample))).emitted = none ∧
     (transcribe_audio_cycle failBackend (List.replicate 8000 (0 : Sample))).chunk =
       some (List.replicate 8000 (0 : Sample)) ∧
     (transcribe_audio_cycle failBackend (List.replicate 8000 (0 : Sample))).buffer = []) :=
  ⟨⟨by rw [List.length_replicate]; exact Nat.le_refl 8000, rfl⟩,
   inference_failure_skipped failBackend (List.replicate 8000 (0 : Sample))
     (by rw [List.length_replicate]; exact Nat.le_refl 8000) rfl⟩

/-- C7: on a successful inference, the update string is the ordered kept
segment texts concatenated each followed by a separating space, and an
update is emitted exactly when that string is non-empty. -/
theorem batch_segments_concat (be : WhisperBackend) (buffer : List Sample)
    (hlen : minChunkSamples ≤ buffer.length) (hok : be.full buffer = .ok ()) :
    (transcribe_audio_cycle be buffer).emitted =
      (if joinSegments (orderedSegments be buffer) = "" then none
       else some (joinSegments (orderedSegments be buffer))) ∧
    ((transcribe_audio_cycle be buffer).emitted ≠ none ↔
      joinSegments (orderedSegments be buffer) ≠ "") := by
  have hnot : ¬ buffer.length < minChunkSamples := Nat.not_lt.2 hlen
  have h1 : (transcribe_audio_cycle be buffer).emitted =
      (if joinSegments (orderedSegments be buffer) = "" then none
       else some (joinSegments (orderedSegments be buffer))) := by
    rw [transcribe_audio_cycle, if_neg hnot]
    simp [drain, hok, segmentFold_eq_join, orderedSegments]
  refine ⟨h1, ?_⟩
  rw [h1]
  by_cases h : joinSegments (orderedSegments be buffer) = "" <;> simp [h]

/-- Witness for C7 with the two-segment backend on an 8000-sample buffer:
the emitted update is exactly the two segments joined with spaces. -/
theorem batch_segments_concat_witness :
    (minChunkSamples ≤ (List.replicate 8000 (0 : Sample)).length ∧
     demoBackend.full (List.replicate 8000 (0 : Sample)) = .ok ()) ∧
    ((transcribe_audio_cycle demoBackend (List.replicate 8000 (0 : Sample))).emitted =
      (if joinSegments (orderedSegments demoBackend (List.replicate 8000 (0 : Sample))) = ""
       then none
       else some (joinSegments (orderedSegments demoBackend (List.replicate 8000 (0 : Sample))))) ∧
     ((transcribe_audio_cycle demoBackend (List.replicate 8000 (0 : Sample))).emitted ≠ none ↔
      joinSegments (orderedSegments demoBackend (List.replicate 8000 (0 : Sample))) ≠ "")) :=
  ⟨⟨by rw [List.length_replicate]; exact Nat.le_refl 8000, rfl⟩,
   batch_segments_concat demoBackend (List.replicate 8000 (0 : Sample))
     (by rw [List.length_replicate]; exact Nat.le_refl 8000) rfl⟩

/-- C8: `start()` while already capturing is a no-op: the whole
application state is unchanged (every field) and no capture or
transcription thread is spawned. -/
theorem start_capture_noop_when_capturing (s : SubWave) (h : s.is_capturing = true) :
    update s Message.StartCapture =
      { state := s, spawned_capture := 0, spawned_transcribe := 0 } := by
  simp [update, h]

/-- Witness for C8 at the concrete capturing state. -/
theorem start_capture_noop_witness :
    capturingState.is_capturing = true ∧
    update capturingState Message.StartCapture =
      { state := capturingState, spawned_capture := 0, spawned_transcribe := 0 } :=
  ⟨rfl, start_capture_noop_when_capturing capturingState rfl⟩

/-- C9: `find_best_input_device` implements exactly the claimed policy —
it equals the claim-level selector (first keyword-matching enumerated
output device, else the default output device, possibly none); in
particular when no enumerated device matches, the result is the host's
default output device (and hence no device when that default is absent). -/
theorem find_best_input_device_policy (host : Host) :
    find_best_input_device host = selectLoopbackDeviceSpec host ∧
    ((∀ d ∈ host.output_devices.getD [], deviceMatches d = false) →
      find_best_input_device host = host.default_output_device) := by
  constructor
  · cases h : host.output_devices with
    | none => simp [find_best_input_device, selectLoopbackDeviceSpec, h]
    | some devices => simp [find_best_input_device, selectLoopbackDeviceSpec, h]
  · intro hall
    cases h : host.output_devices with
    | none => simp [find_best_input_device, h]
    | some devices =>
      have hnone : devices.find? deviceMatches = none := by
        rw [List.find?_eq_none]
        intro x hx
        have hx' : x ∈ host.output_devices.getD [] := by rw [h]; exact hx
        simp [hall x hx']
      simp [find_best_input_device, h, hnone]

/-- Witness for C9 at a host whose one enumerated device does not match
the keyword set: selection falls back to the default output device. -/
theorem find_best_input_device_policy_witness :
    (∀ d ∈ demoHost.output_devices.getD [], deviceMatches d = false) ∧
    find_best_input_device demoHost = demoHost.default_output_device := by
  have hall : ∀ d ∈ demoHost.output_devices.getD [], deviceMatches d = false := by
    intro d hd
    simp only [demoHost, Option.getD_some, List.mem_singleton] at hd
    subst hd
    rfl
  exact ⟨hall, (find_best_input_device_policy demoHost).2 hall⟩

end SubWaveSpec
